import Mathlib

/-!
Verification development for the ProjectEMU64 launcher (hdremu64.py).

The Python source is shallowly embedded: byte buffers become lists of
natural numbers, Python object state becomes Lean structures, and each
method becomes a pure function from the old state (plus explicit inputs
that the Python code obtains from the host: random draws, the host clock)
to the new state.  GUI-only behaviour (Tkinter widgets, dialogs, the
status label, update_display blitting to the PhotoImage) is out of scope
per the specification and is not part of the embedded state.
-/

set_option autoImplicit false

/-! ### Controller constants (source lines 22-28) -/

def CONTROLLER_A : Nat := 0x0001
def CONTROLLER_B : Nat := 0x0002
def CONTROLLER_START : Nat := 0x0004
def CONTROLLER_DPAD_UP : Nat := 0x0010
def CONTROLLER_DPAD_DOWN : Nat := 0x0020
def CONTROLLER_DPAD_LEFT : Nat := 0x0040
def CONTROLLER_DPAD_RIGHT : Nat := 0x0080

/-! ### Memory controller (class ProjectEMU64Memory, source lines 64-79) -/

/-- Size of the RDRAM buffer allocated in ProjectEMU64Memory.__init__:
bytearray(8 * 1024 * 1024). -/
def RDRAM_SIZE : Nat := 8 * 1024 * 1024

structure ProjectEMU64Memory where
  rdram : List Nat
  rom : Option (List Nat)
  rom_size : Nat
deriving Repr, DecidableEq

/-- ProjectEMU64Memory.__init__ (lines 65-68). -/
def ProjectEMU64Memory.init : ProjectEMU64Memory :=
  { rdram := List.replicate RDRAM_SIZE 0, rom := none, rom_size := 0 }

/-- ProjectEMU64Memory.load_rom (lines 70-74): installs the buffer as the
ROM, records its size, and copies min(rom_size, len(rdram)) bytes into the
front of RDRAM. -/
def ProjectEMU64Memory.load_rom (m : ProjectEMU64Memory) (data : List Nat) :
    ProjectEMU64Memory :=
  let rom := data
  let rom_size := data.length
  let copy := min rom_size m.rdram.length
  { m with rom := some rom, rom_size := rom_size,
           rdram := rom.take copy ++ m.rdram.drop copy }

/-- Big-endian decoding of a 4-byte slice, the meaning of
struct.unpack(">I", ...) on a 4-byte buffer of byte values; struct.unpack
demands exactly four bytes, which the read_word guard guarantees. -/
def bytesToWordBE : List Nat → Nat
  | [b0, b1, b2, b3] => b0 * 2 ^ 24 + b1 * 2 ^ 16 + b2 * 2 ^ 8 + b3
  | _ => 0

/-- ProjectEMU64Memory.read_word (lines 76-79): in-range reads decode the
4-byte slice rdram[addr:addr+4] big-endian; anything else returns 0. -/
def ProjectEMU64Memory.read_word (m : ProjectEMU64Memory) (addr : Nat) : Nat :=
  if addr < m.rdram.length - 3 then
    bytesToWordBE ((m.rdram.drop addr).take 4)
  else 0

/-! ### CPU core (class ProjectEMU64CPU, source lines 33-59) -/

structure ProjectEMU64CPU where
  regs : List Nat
  pc : Nat
  next_pc : Nat
  hi : Nat
  lo : Nat
  cp0 : List Nat
  running : Bool
  cycles : Nat
deriving Repr, DecidableEq

/-- ProjectEMU64CPU.__init__ (lines 34-41). -/
def ProjectEMU64CPU.init : ProjectEMU64CPU :=
  { regs := List.replicate 32 0
    pc := 0x80000000
    next_pc := 0x80000000 + 4
    hi := 0
    lo := 0
    cp0 := List.replicate 32 0
    running := false
    cycles := 0 }

/-- ProjectEMU64CPU.reset (lines 43-47): zeroes the GPRs, restores the
reset vector and cycle counter.  It does not touch hi, lo, cp0 or the
running flag. -/
def ProjectEMU64CPU.reset (c : ProjectEMU64CPU) : ProjectEMU64CPU :=
  { c with regs := List.replicate 32 0
           pc := 0x80000000
           next_pc := 0x80000000 + 4
           cycles := 0 }

/-- ProjectEMU64CPU.fetch (lines 49-50). -/
def ProjectEMU64CPU.fetch (c : ProjectEMU64CPU) (memory : ProjectEMU64Memory)
    (addr : Nat) : Nat :=
  memory.read_word addr

/-- ProjectEMU64CPU.execute (lines 52-59).  When halted it returns
immediately with no state change and no log line.  When running it
fetches the word at pc (the second component models the value handed to
log_callback), then advances pc by 4 and increments cycles.  Note that
next_pc is never updated. -/
def ProjectEMU64CPU.execute (c : ProjectEMU64CPU) (memory : ProjectEMU64Memory) :
    ProjectEMU64CPU × Option Nat :=
  if c.running then
    let instr := c.fetch memory c.pc
    ({ c with pc := c.pc + 4, cycles := c.cycles + 1 }, some instr)
  else (c, none)

/-! ### PPU (class ProjectEMU64PPU, source lines 84-107) -/

structure ProjectEMU64PPU where
  width : Nat
  height : Nat
  framebuffer : List String
deriving Repr, DecidableEq

/-- ProjectEMU64PPU.__init__ (lines 85-87). -/
def ProjectEMU64PPU.init : ProjectEMU64PPU :=
  { width := 320, height := 240, framebuffer := List.replicate (320 * 240) "#000000" }

/-- ProjectEMU64PPU.reset (lines 89-91). -/
def ProjectEMU64PPU.reset (p : ProjectEMU64PPU) : ProjectEMU64PPU :=
  { p with framebuffer := List.replicate (p.width * p.height) "#0011FF" }

/-- ProjectEMU64PPU.draw_random_square (lines 93-100).  The Python code
draws at coordinates obtained from random.randint; here the two draws are
explicit inputs x and y. -/
def ProjectEMU64PPU.draw_random_square (p : ProjectEMU64PPU) (x y : Nat) :
    ProjectEMU64PPU :=
  let color := "#FFFFFF"
  let fb := (List.range 20).foldl
    (fun fb j =>
      (List.range 20).foldl
        (fun fb i => fb.set ((y + j) * p.width + (x + i)) color) fb)
    p.framebuffer
  { p with framebuffer := fb }

/-! ### Controller (class SimpleController, source lines 112-123) -/

structure SimpleController where
  buttons : Nat
deriving Repr, DecidableEq

/-- SimpleController.__init__ (lines 113-114). -/
def SimpleController.init : SimpleController := { buttons := 0 }

/-- SimpleController.update (lines 116-123): rebuilds buttons from
scratch as a chain of bitwise ors over the recognized keys.  The previous
buttons value never enters the computation. -/
def SimpleController.update (c : SimpleController) (keys : List String) :
    SimpleController :=
  let b0 : Nat := 0
  let b1 := if keys.contains "space" then b0 ||| CONTROLLER_A else b0
  let b2 := if keys.contains "Return" then b1 ||| CONTROLLER_B else b1
  let b3 := if keys.contains "Up" then b2 ||| CONTROLLER_DPAD_UP else b2
  let b4 := if keys.contains "Down" then b3 ||| CONTROLLER_DPAD_DOWN else b3
  let b5 := if keys.contains "Left" then b4 ||| CONTROLLER_DPAD_LEFT else b4
  let b6 := if keys.contains "Right" then b5 ||| CONTROLLER_DPAD_RIGHT else b5
  { buttons := b6 }

/-! ### Launcher (class ProjectEMU64Launcher, source lines 128-236)

Only the emulation-relevant state is embedded; Tkinter widgets, labels
and dialogs are host-side.  The host clock (time.time()) is modelled as
explicit natural-number inputs. -/

structure ProjectEMU64Launcher where
  cpu : ProjectEMU64CPU
  memory : ProjectEMU64Memory
  ppu : ProjectEMU64PPU
  controller : SimpleController
  keys : List String
  running : Bool
  fps : Nat
  frame_count : Nat
  start_time : Nat
deriving Repr, DecidableEq

/-- ProjectEMU64Launcher.__init__ (lines 129-143); t0 is the host clock
value read by time.time() at construction. -/
def ProjectEMU64Launcher.init (t0 : Nat) : ProjectEMU64Launcher :=
  { cpu := ProjectEMU64CPU.init
    memory := ProjectEMU64Memory.init
    ppu := ProjectEMU64PPU.init
    controller := SimpleController.init
    keys := []
    running := false
    fps := 0
    frame_count := 0
    start_time := t0 }

/-- ProjectEMU64Launcher.open_rom (lines 196-205), reduced to its core
effect: handing the file bytes to memory.load_rom. -/
def ProjectEMU64Launcher.open_rom (l : ProjectEMU64Launcher) (data : List Nat) :
    ProjectEMU64Launcher :=
  { l with memory := l.memory.load_rom data }

/-- ProjectEMU64Launcher.start (lines 207-214): no-op when already
running; otherwise resets the CPU and PPU and raises the launcher running
flag.  It never touches cpu.running. -/
def ProjectEMU64Launcher.start (l : ProjectEMU64Launcher) : ProjectEMU64Launcher :=
  if l.running then l
  else { l with cpu := l.cpu.reset, ppu := l.ppu.reset, running := true }

/-- ProjectEMU64Launcher.stop (lines 216-218). -/
def ProjectEMU64Launcher.stop (l : ProjectEMU64Launcher) : ProjectEMU64Launcher :=
  { l with running := false }

/-- ProjectEMU64Launcher.update_fps (lines 229-236); now is the host
clock value read by time.time() during this call. -/
def ProjectEMU64Launcher.update_fps (l : ProjectEMU64Launcher) (now : Nat) :
    ProjectEMU64Launcher :=
  let fc := l.frame_count + 1
  if 1 ≤ now - l.start_time then
    { l with fps := fc, frame_count := 0, start_time := now }
  else
    { l with frame_count := fc }

/-- One iteration of the body of ProjectEMU64Launcher.loop (lines
220-227).  The guard mirrors the while condition; r is the
random.randint(0, 10) draw, x and y the draws inside draw_random_square,
and now the host clock value seen by update_fps.  update_display only
blits to the Tkinter image and time.sleep only delays, so neither touches
embedded state. -/
def ProjectEMU64Launcher.loopIter (l : ProjectEMU64Launcher) (r x y now : Nat) :
    ProjectEMU64Launcher :=
  if l.running then
    let l1 := { l with cpu := (l.cpu.execute l.memory).1 }
    let l2 := if r = 0 then { l1 with ppu := l1.ppu.draw_random_square x y } else l1
    l2.update_fps now
  else l

/-- Running several loop iterations; each step supplies that iteration's
random draws and clock value. -/
def ProjectEMU64Launcher.runLoop (l : ProjectEMU64Launcher)
    (steps : List (Nat × Nat × Nat × Nat)) : ProjectEMU64Launcher :=
  steps.foldl (fun l s => l.loopIter s.1 s.2.1 s.2.2.1 s.2.2.2) l

/-! ### Launcher operations, for reachability statements -/

inductive LauncherOp where
  | loadRom (data : List Nat)
  | start
  | stop
  | loopIter (r x y now : Nat)

def ProjectEMU64Launcher.applyOp (l : ProjectEMU64Launcher) :
    LauncherOp → ProjectEMU64Launcher
  | .loadRom data => l.open_rom data
  | .start => l.start
  | .stop => l.stop
  | .loopIter r x y now => l.loopIter r x y now

/-! ### CPU operations, for the register-zero invariant -/

inductive CpuOp where
  | reset
  | execute (m : ProjectEMU64Memory)

def ProjectEMU64CPU.applyOp (c : ProjectEMU64CPU) : CpuOp → ProjectEMU64CPU
  | .reset => c.reset
  | .execute m => (c.execute m).1

/-! ### The loadImage interface of the specification -/

inductive LoadError where
  | empty
  | tooLarge
deriving Repr, DecidableEq

/-- Specification-side definition, following the words of the spec for
loadImage: fail with LoadError.empty on a zero-length buffer, with
LoadError.tooLarge when the content exceeds the mapped ROM window, and
otherwise install the content, leaving core state unmodified on failure.
This is the contract the claim says load_rom implements; it is compared
against the source-derived load_rom above. -/
def loadImage_spec (m : ProjectEMU64Memory) (data : List Nat) :
    Except LoadError ProjectEMU64Memory :=
  if data.length = 0 then .error .empty
  else if m.rdram.length < data.length then .error .tooLarge
  else .ok (m.load_rom data)

/-! ### Helper lemmas -/

/-- A 4-element slice of a list, expressed through indexing. -/
theorem slice4 (l : List Nat) (addr : Nat) (h : addr < l.length - 3) :
    (l.drop addr).take 4 =
      [l.getD addr 0, l.getD (addr + 1) 0, l.getD (addr + 2) 0, l.getD (addr + 3) 0] := by
  have hlen : 3 < (l.drop addr).length := by
    simp [List.length_drop]; omega
  match hd : l.drop addr with
  | [] => simp [hd] at hlen
  | [a] => simp [hd] at hlen
  | [a, b] => simp [hd] at hlen
  | [a, b, c] => simp [hd] at hlen
  | a :: b :: c :: d :: rest =>
    have g : ∀ i, l.getD (addr + i) 0 = (a :: b :: c :: d :: rest).getD i 0 := by
      intro i
      rw [← hd]
      simp [List.getD_eq_getElem?_getD, List.getElem?_drop]
    have g0 := g 0
    have g1 := g 1
    have g2 := g 2
    have g3 := g 3
    simp at g0 g1 g2 g3
    simp [g0, g1, g2, g3]

/-! ### C5: reset behaviour -/

/-- C5 counterexample: reset does not reinitialize the HI/LO pair (nor
cp0) to their power-on value 0: starting from a state with hi = 5, reset
leaves hi = 5. -/
theorem reset_preserves_hi :
    ({ ProjectEMU64CPU.init with hi := 5 } : ProjectEMU64CPU).reset.hi ≠ 0 := by
  decide

/-- C5 amended: reset zeroes all 32 general-purpose registers, sets pc to
the fixed reset vector 0x80000000 with next_pc = pc + 4, and sets the
cycle counter to 0; the HI/LO pair, the cp0 bank and the running flag are
left unchanged rather than reinitialized. -/
theorem reset_behavior (c : ProjectEMU64CPU) :
    c.reset.regs = List.replicate 32 0 ∧
    c.reset.pc = 0x80000000 ∧
    c.reset.next_pc = 0x80000000 + 4 ∧
    c.reset.cycles = 0 ∧
    c.reset.hi = c.hi ∧
    c.reset.lo = c.lo ∧
    c.reset.cp0 = c.cp0 ∧
    c.reset.running = c.running := by
  simp [ProjectEMU64CPU.reset]

/-! ### C6: bus reads are total, out-of-range reads are open-bus zero -/

/-- C6: read_word is a total function (it is defined for every address
and every memory state); an access outside the guarded RAM window
returns the defined open-bus fallback value 0 instead of faulting. -/
theorem read_word_open_bus (m : ProjectEMU64Memory) (addr : Nat)
    (h : ¬ addr < m.rdram.length - 3) :
    m.read_word addr = 0 := by
  simp [ProjectEMU64Memory.read_word, h]

/-- C6 witness: the boot-time program counter 0x80000000 lies outside the
8MB RDRAM window of the freshly constructed memory, and reading it
yields 0. -/
theorem read_word_open_bus_witness :
    (¬ 0x80000000 < ProjectEMU64Memory.init.rdram.length - 3) ∧
    ProjectEMU64Memory.init.read_word 0x80000000 = 0 := by
  have h : ProjectEMU64Memory.init.rdram.length = RDRAM_SIZE := by
    simp [ProjectEMU64Memory.init]
  refine ⟨?_, read_word_open_bus _ _ ?_⟩ <;> rw [h] <;> norm_num [RDRAM_SIZE]

/-! ### C7: in-range reads are big-endian and byte-exact -/

/-- C7: for every in-range address the 4-byte read is big-endian and
byte-exact: the word is the first byte shifted into the top octet down
to the fourth byte in the low octet.  The embedding is
platform-independent, so no host endianness can enter. -/
theorem read_word_big_endian (m : ProjectEMU64Memory) (addr : Nat)
    (h : addr < m.rdram.length - 3) :
    m.read_word addr =
      m.rdram.getD addr 0 * 2 ^ 24 + m.rdram.getD (addr + 1) 0 * 2 ^ 16 +
      m.rdram.getD (addr + 2) 0 * 2 ^ 8 + m.rdram.getD (addr + 3) 0 := by
  simp [ProjectEMU64Memory.read_word, h, slice4 m.rdram addr h, bytesToWordBE]

/-- C7 witness: reading address 0 of a 4-byte memory [1, 2, 3, 4]
produces the big-endian word 0x01020304. -/
theorem read_word_big_endian_witness :
    (0 < (⟨[1, 2, 3, 4], none, 0⟩ : ProjectEMU64Memory).rdram.length - 3) ∧
    (⟨[1, 2, 3, 4], none, 0⟩ : ProjectEMU64Memory).read_word 0 =
      (⟨[1, 2, 3, 4], none, 0⟩ : ProjectEMU64Memory).rdram.getD 0 0 * 2 ^ 24 +
      (⟨[1, 2, 3, 4], none, 0⟩ : ProjectEMU64Memory).rdram.getD (0 + 1) 0 * 2 ^ 16 +
      (⟨[1, 2, 3, 4], none, 0⟩ : ProjectEMU64Memory).rdram.getD (0 + 2) 0 * 2 ^ 8 +
      (⟨[1, 2, 3, 4], none, 0⟩ : ProjectEMU64Memory).rdram.getD (0 + 3) 0 :=
  ⟨by decide, read_word_big_endian _ 0 (by decide)⟩

/-! ### C1: one execute step -/

/-- C1 counterexample: execute never advances next_pc.  On the power-on
state with the running flag raised, next_pc stays at 0x80000004 after one
step instead of becoming old next_pc + 4 = 0x80000008, refuting the
claimed pc/next_pc update discipline. -/
theorem execute_next_pc_not_advanced :
    (({ ProjectEMU64CPU.init with running := true } : ProjectEMU64CPU).execute
        ProjectEMU64Memory.init).1.next_pc ≠
      ({ ProjectEMU64CPU.init with running := true } : ProjectEMU64CPU).next_pc + 4 := by
  decide

/-- C1 amended: when the running flag is true, one execute call fetches
exactly the word at pc (the logged value), sets pc to the old pc + 4,
leaves next_pc unchanged, and increments the cycle counter by exactly 1. -/
theorem execute_step_behavior (c : ProjectEMU64CPU) (m : ProjectEMU64Memory)
    (h : c.running = true) :
    (c.execute m).2 = some (m.read_word c.pc) ∧
    (c.execute m).1.pc = c.pc + 4 ∧
    (c.execute m).1.next_pc = c.next_pc ∧
    (c.execute m).1.cycles = c.cycles + 1 := by
  simp [ProjectEMU64CPU.execute, ProjectEMU64CPU.fetch, h]

/-- C1 witness: the amended step behaviour at the power-on state with the
running flag raised, against the freshly constructed memory. -/
theorem execute_step_behavior_witness :
    ({ ProjectEMU64CPU.init with running := true } : ProjectEMU64CPU).running = true ∧
    ((({ ProjectEMU64CPU.init with running := true } : ProjectEMU64CPU).execute
        ProjectEMU64Memory.init).2 =
      some (ProjectEMU64Memory.init.read_word
        ({ ProjectEMU64CPU.init with running := true } : ProjectEMU64CPU).pc) ∧
    (({ ProjectEMU64CPU.init with running := true } : ProjectEMU64CPU).execute
        ProjectEMU64Memory.init).1.pc =
      ({ ProjectEMU64CPU.init with running := true } : ProjectEMU64CPU).pc + 4 ∧
    (({ ProjectEMU64CPU.init with running := true } : ProjectEMU64CPU).execute
        ProjectEMU64Memory.init).1.next_pc =
      ({ ProjectEMU64CPU.init with running := true } : ProjectEMU64CPU).next_pc ∧
    (({ ProjectEMU64CPU.init with running := true } : ProjectEMU64CPU).execute
        ProjectEMU64Memory.init).1.cycles =
      ({ ProjectEMU64CPU.init with running := true } : ProjectEMU64CPU).cycles + 1) :=
  ⟨rfl, execute_step_behavior _ _ rfl⟩

/-! ### C3: load_rom versus the loadImage error contract -/

/-- C3 counterexample: the specification demands that loadImage fail with
LoadError.empty on a zero-length buffer and leave prior core state
unmodified, but load_rom modifies the state on the empty buffer: the rom
field changes from none to some []. -/
theorem load_rom_empty_modifies_state :
    loadImage_spec ProjectEMU64Memory.init [] = Except.error LoadError.empty ∧
    (ProjectEMU64Memory.init.load_rom []).rom ≠ ProjectEMU64Memory.init.rom := by
  refine ⟨rfl, ?_⟩
  simp [ProjectEMU64Memory.load_rom, ProjectEMU64Memory.init]

/-- C3 amended: load_rom never signals an error: for every buffer,
including the empty and the oversized ones, it installs the buffer as the
ROM and records its full length; a zero-length buffer leaves rdram
unchanged (but still overwrites rom and rom_size), and oversized content
is silently truncated to the RDRAM window, the rdram length never
changing. -/
theorem load_rom_total_behavior (m : ProjectEMU64Memory) (data : List Nat) :
    (m.load_rom data).rom = some data ∧
    (m.load_rom data).rom_size = data.length ∧
    (m.load_rom []).rdram = m.rdram ∧
    (m.load_rom data).rdram.length = m.rdram.length := by
  refine ⟨by simp [ProjectEMU64Memory.load_rom], by simp [ProjectEMU64Memory.load_rom], ?_, ?_⟩
  · simp [ProjectEMU64Memory.load_rom]
  · simp only [ProjectEMU64Memory.load_rom, List.length_append, List.length_take,
      List.length_drop]
    omega

/-! ### C2: the CPU never actually runs -/

/-- Invariant carried through all launcher operations: the CPU sits at
the reset vector with a zero cycle counter and a lowered running flag. -/
def cpuIdle (l : ProjectEMU64Launcher) : Prop :=
  l.cpu.pc = 0x80000000 ∧ l.cpu.cycles = 0 ∧ l.cpu.running = false

/-- Each launcher operation preserves cpuIdle: loading a ROM and stop do
not touch the CPU, start resets it back to the reset vector without
raising cpu.running, and a loop iteration calls execute on a halted CPU,
which returns it unchanged. -/
theorem applyOp_cpuIdle (l : ProjectEMU64Launcher) (op : LauncherOp)
    (h : cpuIdle l) : cpuIdle (l.applyOp op) := by
  obtain ⟨hpc, hcy, hrun⟩ := h
  cases op with
  | loadRom data =>
    exact ⟨hpc, hcy, hrun⟩
  | start =>
    simp only [ProjectEMU64Launcher.applyOp, ProjectEMU64Launcher.start]
    split
    · exact ⟨hpc, hcy, hrun⟩
    · exact ⟨rfl, rfl, hrun⟩
  | stop =>
    exact ⟨hpc, hcy, hrun⟩
  | loopIter r x y now =>
    simp only [ProjectEMU64Launcher.applyOp, ProjectEMU64Launcher.loopIter]
    split
    · have hexec : (l.cpu.execute l.memory).1 = l.cpu := by
        simp [ProjectEMU64CPU.execute, hrun]
      simp only [ProjectEMU64Launcher.update_fps]
      split <;> split <;> simp_all [cpuIdle]
    · exact ⟨hpc, hcy, hrun⟩

/-- C2: after any sequence of launcher operations (ROM loads, start,
stop, loop iterations) from the freshly constructed launcher, the CPU
program counter is still 0x80000000, the cycle counter is still 0, and
the CPU running flag is still false: nothing in the program ever raises
cpu.running, and execute is a no-op on a halted CPU. -/
theorem launcher_cpu_never_runs (t0 : Nat) (ops : List LauncherOp) :
    (ops.foldl ProjectEMU64Launcher.applyOp (ProjectEMU64Launcher.init t0)).cpu.pc
        = 0x80000000 ∧
    (ops.foldl ProjectEMU64Launcher.applyOp (ProjectEMU64Launcher.init t0)).cpu.cycles = 0 ∧
    (ops.foldl ProjectEMU64Launcher.applyOp (ProjectEMU64Launcher.init t0)).cpu.running
        = false := by
  have main : ∀ (ops : List LauncherOp) (l : ProjectEMU64Launcher), cpuIdle l →
      cpuIdle (ops.foldl ProjectEMU64Launcher.applyOp l) := by
    intro ops
    induction ops with
    | nil => intro l h; exact h
    | cons op rest ih =>
      intro l h
      exact ih _ (applyOp_cpuIdle l op h)
  exact main ops _ ⟨rfl, rfl, rfl⟩

/-! ### C8: register zero stays zero -/

/-- Both CPU operations preserve a zero in register slot 0: reset
rewrites the whole register file with zeroes and execute never writes
the register file at all. -/
theorem applyOp_reg_zero (c : ProjectEMU64CPU) (op : CpuOp)
    (h : c.regs.getD 0 0 = 0) : (c.applyOp op).regs.getD 0 0 = 0 := by
  cases op with
  | reset => simp [ProjectEMU64CPU.applyOp, ProjectEMU64CPU.reset]
  | execute m =>
    have hregs : ((c.execute m).1).regs = c.regs := by
      simp only [ProjectEMU64CPU.execute]
      split <;> rfl
    rw [ProjectEMU64CPU.applyOp, hregs]
    exact h

/-- C8: in every CPU state reachable from power-on by any sequence of
reset and execute operations, reading general-purpose register 0 returns
zero. -/
theorem reg_zero_always_zero (ops : List CpuOp) :
    (ops.foldl ProjectEMU64CPU.applyOp ProjectEMU64CPU.init).regs.getD 0 0 = 0 := by
  have main : ∀ (ops : List CpuOp) (c : ProjectEMU64CPU), c.regs.getD 0 0 = 0 →
      (ops.foldl ProjectEMU64CPU.applyOp c).regs.getD 0 0 = 0 := by
    intro ops
    induction ops with
    | nil => intro c h; exact h
    | cons op rest ih => intro c h; exact ih _ (applyOp_reg_zero c op h)
  exact main ops _ rfl

/-! ### C4: frame determinism -/

/-- The part of the launcher state that feeds back into future frames:
CPU, memory, PPU and the running flag.  The fps bookkeeping driven by the
host clock is deliberately excluded. -/
def core (l : ProjectEMU64Launcher) :
    ProjectEMU64CPU × ProjectEMU64Memory × ProjectEMU64PPU × Bool :=
  (l.cpu, l.memory, l.ppu, l.running)

/-- One loop iteration transforms the core state by a function of the
core state and the random draws alone; the host clock only reaches the
fps bookkeeping. -/
theorem loopIter_core_eq (l : ProjectEMU64Launcher) (r x y now : Nat) :
    core (l.loopIter r x y now) =
      if l.running then
        ((l.cpu.execute l.memory).1, l.memory,
          if r = 0 then l.ppu.draw_random_square x y else l.ppu, l.running)
      else core l := by
  simp only [ProjectEMU64Launcher.loopIter, ProjectEMU64Launcher.update_fps, core]
  split
  · split <;> split <;> rfl
  · rfl

/-- Two loop runs whose iterations use the same random draws, but
arbitrary and possibly different host-clock values, keep equal core
states from equal core states. -/
theorem runLoop_core (steps steps' : List (Nat × Nat × Nat × Nat)) :
    ∀ (l1 l2 : ProjectEMU64Launcher),
      steps.map (fun s => (s.1, s.2.1, s.2.2.1)) =
        steps'.map (fun s => (s.1, s.2.1, s.2.2.1)) →
      core l1 = core l2 →
      core (l1.runLoop steps) = core (l2.runLoop steps') := by
  induction steps generalizing steps' with
  | nil =>
    intro l1 l2 hmap hcore
    cases steps' with
    | nil => exact hcore
    | cons s' rest' => simp at hmap
  | cons s rest ih =>
    intro l1 l2 hmap hcore
    cases steps' with
    | nil => simp at hmap
    | cons s' rest' =>
      simp only [List.map_cons, List.cons.injEq, Prod.mk.injEq] at hmap
      obtain ⟨⟨hr, hx, hy⟩, hrest⟩ := hmap
      have hstep : core (l1.loopIter s.1 s.2.1 s.2.2.1 s.2.2.2) =
          core (l2.loopIter s'.1 s'.2.1 s'.2.2.1 s'.2.2.2) := by
        rw [loopIter_core_eq, loopIter_core_eq]
        have hc : l1.cpu = l2.cpu := congrArg Prod.fst hcore
        have hm : l1.memory = l2.memory := congrArg (fun p => p.2.1) hcore
        have hp : l1.ppu = l2.ppu := congrArg (fun p => p.2.2.1) hcore
        have hb : l1.running = l2.running := congrArg (fun p => p.2.2.2) hcore
        rw [hc, hm, hp, hb, hr, hx, hy, hcore]
      simpa only [ProjectEMU64Launcher.runLoop, List.foldl_cons] using
        ih rest' _ _ hrest hstep

set_option maxRecDepth 10000 in
/-- C4 counterexample: the framebuffer does depend on the host random
number generator.  Starting the freshly constructed launcher (same
absent ROM, same empty input sequence) and advancing one frame, a run
whose randint draw is 0 paints a white square while a run whose draw is
1 leaves the cleared blue framebuffer; pixel 0 differs. -/
theorem loop_framebuffer_depends_on_rng :
    ((ProjectEMU64Launcher.init 0).start.loopIter 0 0 0 0).ppu.framebuffer.getD 0 "" ≠
      ((ProjectEMU64Launcher.init 0).start.loopIter 1 0 0 0).ppu.framebuffer.getD 0 "" := by
  decide

/-- C4 amended: two runs that load the same ROM, apply the same inputs,
advance the same number of frames and observe the same random draws
produce identical framebuffers even when their host-clock readings
differ arbitrarily: no value inside the per-frame update other than the
random draws, and in particular not the host clock, influences the
framebuffer. -/
theorem loop_framebuffer_clock_independent (l : ProjectEMU64Launcher)
    (steps steps' : List (Nat × Nat × Nat × Nat))
    (h : steps.map (fun s => (s.1, s.2.1, s.2.2.1)) =
      steps'.map (fun s => (s.1, s.2.1, s.2.2.1))) :
    (l.runLoop steps).ppu = (l.runLoop steps').ppu := by
  have hc := runLoop_core steps steps' l l h rfl
  exact congrArg (fun p => p.2.2.1) hc

/-- C4 witness: one frame with draw (0, 0, 0) at clock value 1 versus
clock value 2 yields the same PPU state. -/
theorem loop_framebuffer_clock_independent_witness :
    ([((0 : Nat), (0 : Nat), (0 : Nat), (1 : Nat))].map (fun s => (s.1, s.2.1, s.2.2.1)) =
      [((0 : Nat), (0 : Nat), (0 : Nat), (2 : Nat))].map (fun s => (s.1, s.2.1, s.2.2.1))) ∧
    ((ProjectEMU64Launcher.init 0).runLoop [(0, 0, 0, 1)]).ppu =
      ((ProjectEMU64Launcher.init 0).runLoop [(0, 0, 0, 2)]).ppu :=
  ⟨rfl, loop_framebuffer_clock_independent _ _ _ rfl⟩

/-! ### C9: load_rom writes the ROM prefix into RDRAM -/

/-- C9: load_rom always succeeds; afterwards rom_size is the buffer
length, the first min(len(data), 8MB) bytes of RDRAM are the matching
prefix of the buffer, the bytes beyond that are unchanged, and RDRAM is
still exactly 8 * 1024 * 1024 bytes long. -/
theorem load_rom_rdram_spec (m : ProjectEMU64Memory) (data : List Nat)
    (h : m.rdram.length = RDRAM_SIZE) :
    (m.load_rom data).rom_size = data.length ∧
    (m.load_rom data).rdram.take (min data.length RDRAM_SIZE) =
      data.take (min data.length RDRAM_SIZE) ∧
    (m.load_rom data).rdram.drop (min data.length RDRAM_SIZE) =
      m.rdram.drop (min data.length RDRAM_SIZE) ∧
    (m.load_rom data).rdram.length = RDRAM_SIZE := by
  have hcopy : min data.length m.rdram.length = min data.length RDRAM_SIZE := by rw [h]
  have hlen : (data.take (min data.length RDRAM_SIZE)).length =
      min data.length RDRAM_SIZE := by
    simp [List.length_take]
  refine ⟨by simp [ProjectEMU64Memory.load_rom], ?_, ?_, ?_⟩
  · simp only [ProjectEMU64Memory.load_rom, hcopy]
    exact List.take_left' hlen
  · simp only [ProjectEMU64Memory.load_rom, hcopy]
    exact List.drop_left' hlen
  · simp only [ProjectEMU64Memory.load_rom, hcopy, List.length_append, List.length_take,
      List.length_drop]
    omega

/-- C9 witness: loading the 3-byte buffer [7, 8, 9] into the freshly
constructed memory. -/
theorem load_rom_rdram_spec_witness :
    ProjectEMU64Memory.init.rdram.length = RDRAM_SIZE ∧
    ((ProjectEMU64Memory.init.load_rom [7, 8, 9]).rom_size = ([7, 8, 9] : List Nat).length ∧
    (ProjectEMU64Memory.init.load_rom [7, 8, 9]).rdram.take
        (min ([7, 8, 9] : List Nat).length RDRAM_SIZE) =
      ([7, 8, 9] : List Nat).take (min ([7, 8, 9] : List Nat).length RDRAM_SIZE) ∧
    (ProjectEMU64Memory.init.load_rom [7, 8, 9]).rdram.drop
        (min ([7, 8, 9] : List Nat).length RDRAM_SIZE) =
      ProjectEMU64Memory.init.rdram.drop (min ([7, 8, 9] : List Nat).length RDRAM_SIZE) ∧
    (ProjectEMU64Memory.init.load_rom [7, 8, 9]).rdram.length = RDRAM_SIZE) := by
  have h : ProjectEMU64Memory.init.rdram.length = RDRAM_SIZE := by
    simp [ProjectEMU64Memory.init]
  exact ⟨h, load_rom_rdram_spec ProjectEMU64Memory.init [7, 8, 9] h⟩

/-! ### C10: controller update -/

/-- C10: update rebuilds buttons as exactly the bitwise or of the bits
of the six recognized keys, independent of the previous controller
state (the right-hand side mentions only the key set), and the
CONTROLLER_START bit 0x0004 is never set in the result. -/
theorem controller_update_buttons (c : SimpleController) (keys : List String) :
    (c.update keys).buttons =
      ((if keys.contains "space" then CONTROLLER_A else 0) |||
       (if keys.contains "Return" then CONTROLLER_B else 0) |||
       (if keys.contains "Up" then CONTROLLER_DPAD_UP else 0) |||
       (if keys.contains "Down" then CONTROLLER_DPAD_DOWN else 0) |||
       (if keys.contains "Left" then CONTROLLER_DPAD_LEFT else 0) |||
       (if keys.contains "Right" then CONTROLLER_DPAD_RIGHT else 0)) ∧
    (c.update keys).buttons &&& CONTROLLER_START = 0 := by
  simp only [SimpleController.update]
  rcases hb1 : keys.contains "space" <;>
  rcases hb2 : keys.contains "Return" <;>
  rcases hb3 : keys.contains "Up" <;>
  rcases hb4 : keys.contains "Down" <;>
  rcases hb5 : keys.contains "Left" <;>
  rcases hb6 : keys.contains "Right" <;>
    exact ⟨by decide, by decide⟩
